import Mathlib

/-!
Shallow embedding of the presence-change detection and broadcast-dispatch
engine of koishi-plugin-steam-info-check (src/index.ts, lines 1187-1426),
together with theorems checking the natural-language specification against it.

JavaScript Map objects become association lists with first-match lookup,
JavaScript string/number truthiness is modelled explicitly, and every
external effect (database reads, the Steam fetch, the renderer, message
sends, Math.random, Date.now) is an oracle recorded in an environment
record, so the whole cycle is a pure function of state and environment.
-/

namespace SteamInfo

/-- PlayerSummary as used by the broadcast engine (service.ts).
Optional string fields keep the JS distinction absent / present-but-empty. -/
structure PlayerSummary where
  steamid : String
  personaname : String
  gameextrainfo : Option String
  gameid : Option String
  deriving Repr, DecidableEq

/-- steam_bind row (database.ts). -/
structure SteamBind where
  userId : String
  channelId : String
  steamId : String
  nickname : Option String
  deriving Repr, DecidableEq

/-- steam_channel row (database.ts plus the platform / assignee columns
declared in index.ts model.extend). -/
structure SteamChannel where
  id : String
  enable : Bool
  name : Option String
  avatar : Option String
  platform : Option String
  assignee : Option String
  deriving Repr, DecidableEq

/-- JS truthiness of an optional string: undefined and the empty string are
falsy (this is what `x || null`, `x || y` and `if (x)` test). -/
def jsTruthy : Option String → Option String
  | some s => if s = "" then none else some s
  | none => none

/-- JS truthiness of an optional number: undefined and 0 are falsy. -/
def jsTruthyNat : Option Nat → Bool
  | some t => t != 0
  | none => false

/-- Association-list model of a JS Map keyed by strings. -/
abbrev SMap (α : Type) := List (String × α)

/-- Map.get: first binding wins. -/
def mget {α : Type} (m : SMap α) (k : String) : Option α :=
  (m.find? (fun e => e.1 == k)).map (·.2)

/-- Map.set: overwrite in place if the key is present, else append. -/
def mset {α : Type} : SMap α → String → α → SMap α
  | [], k, v => [(k, v)]
  | (k', v') :: rest, k, v =>
    if k' == k then (k, v) :: rest else (k', v') :: mset rest k v

/-- Map.delete: drop every binding of the key. -/
def mdel {α : Type} (m : SMap α) (k : String) : SMap α :=
  m.filter (fun e => e.1 != k)

/-- playMeta entry: `{ lastLeftAt?: number, lastLeftGame?: string }`. -/
structure PlayMeta where
  lastLeftAt : Option Nat
  lastLeftGame : Option String
  deriving Repr, DecidableEq

/-- The three module-level mutable maps of index.ts (lines 1188-1192). -/
structure BState where
  statusCache : SMap PlayerSummary
  playMeta : SMap PlayMeta
  lastSeenAt : SMap Nat

/-- STALE_TTL_MS = 7 days (index.ts line 1194). -/
def STALE_TTL_MS : Nat := 7 * 24 * 60 * 60 * 1000

/-- A startGamingPlayers entry: `{ ...current, nickname: bind.nickname,
gameextrainfo: displayGameName }`. -/
structure StartPlayer where
  summary : PlayerSummary
  nickname : Option String
  deriving Repr, DecidableEq

/-- Observable events of one poll cycle. -/
inductive Event where
  | sendText (bot ch text : String)
  | sendImage (bot ch img : String)
  | sendTextImage (bot ch text img : String)
  | delay (ms : Nat)
  | logError (msg : String)
  deriving Repr, DecidableEq

/-- Event is an outbound message send. -/
def Event.isSend : Event → Bool
  | .sendText _ _ _ => true
  | .sendImage _ _ _ => true
  | .sendTextImage _ _ _ _ => true
  | _ => false

/-- Event is an inter-send pacing delay. -/
def Event.isDelay : Event → Bool
  | .delay _ => true
  | _ => false

/-- Oracle environment: one poll cycle's external world.  Database reads may
throw; getPlayerSummaries and getLocalizedGameName catch internally
(service.ts) and so return plain values; renderer calls may throw or return
a falsy value; each sendMessage call (numbered in call order) may throw;
rand n is the n-th value of `Math.floor(Math.random() * 6000)`. -/
structure Env where
  channelsRes : Except String (List SteamChannel)
  bindsRes : Except String (List SteamBind)
  fetch : List String → List PlayerSummary
  localize : String → String
  bots : List (String × String)
  drawRoster : SteamChannel → List PlayerSummary → Except String (Option String)
  drawCard : StartPlayer → Except String (Option String)
  sendOk : Nat → Bool
  rand : Nat → Nat
  now : Nat

/-- Plugin configuration relevant to the dispatcher. -/
structure Config where
  startBroadcastType : Option String

/-- Resolution of (broadcastType, startMode) from configuration
(index.ts lines 1362-1371). -/
def resolveModes (configured : Option String) : String × String :=
  let c := (jsTruthy configured).getD "text_image"
  if c = "all" ∨ c = "part" ∨ c = "none" then (c, "text_image") else ("part", c)

/-- One bot.sendMessage call: consumes one slot of the send-outcome oracle;
on failure the error propagates to the nearest enclosing catch. -/
def sendMessage (env : Env) (k : Nat) (e : Event) :
    Except (String × Nat) (List Event × Nat) :=
  if env.sendOk k then .ok ([e], k + 1) else .error ("send failed", k + 1)

/-- Display-name resolution for the started game (index.ts lines 1295-1299):
localized store name when the summary has a truthy gameid and the lookup
returns a truthy string, else the raw gameextrainfo. -/
def displayGameName (env : Env) (current : PlayerSummary) (newGame : String) :
    String :=
  match jsTruthy current.gameid with
  | some gid =>
    let localized := env.localize gid
    if localized = "" then newGame else localized
  | none => newGame

/-- Empty playMeta record, the `|| {}` default. -/
def PlayMeta.empty : PlayMeta := ⟨none, none⟩

/-- The per-binding body of the classification loop (index.ts lines
1286-1325): returns the chat lines, just-started entries and updated
playMeta map contributed by this binding. -/
def processBind (env : Env) (now : Nat) (currentMap : SMap PlayerSummary)
    (cache : SMap PlayerSummary) (meta0 : SMap PlayMeta) (bind : SteamBind) :
    List String × List StartPlayer × SMap PlayMeta :=
  match mget currentMap bind.steamId, mget cache bind.steamId with
  | some current, some old =>
    let oldGame := jsTruthy old.gameextrainfo
    let newGame := jsTruthy current.gameextrainfo
    let name := (jsTruthy bind.nickname).getD current.personaname
    let meta := (mget meta0 bind.steamId).getD PlayMeta.empty
    match newGame, oldGame with
    | some ng, none =>
      let disp := displayGameName env current ng
      let isResume :=
        match meta.lastLeftAt with
        | some t => t != 0 && meta.lastLeftGame == some ng && now - t < 10 * 60 * 1000
        | none => false
      let line := name ++ " 开始玩 " ++ disp ++ " 了"
      let startP : StartPlayer := ⟨{ current with gameextrainfo := some disp }, bind.nickname⟩
      if isResume then ([], [], mset meta0 bind.steamId PlayMeta.empty)
      else ([line], [startP], mset meta0 bind.steamId PlayMeta.empty)
    | some ng, some og =>
      if ng = og then ([], [], meta0)
      else
        let disp := displayGameName env current ng
        let line := name ++ " 开始玩 " ++ disp ++ " 了"
        let startP : StartPlayer := ⟨{ current with gameextrainfo := some disp }, bind.nickname⟩
        ([line], [startP], mset meta0 bind.steamId PlayMeta.empty)
    | none, some og => ([], [], mset meta0 bind.steamId ⟨some now, some og⟩)
    | none, none => ([], [], meta0)
  | _, _ => ([], [], meta0)

/-- The classification loop over one channel's bindings, in binding
iteration order, threading the playMeta map. -/
def classifyChannel (env : Env) (now : Nat) (currentMap : SMap PlayerSummary)
    (cache : SMap PlayerSummary) :
    List SteamBind → SMap PlayMeta → List String × List StartPlayer × SMap PlayMeta
  | [], meta => ([], [], meta)
  | b :: rest, meta =>
    let r1 := processBind env now currentMap cache meta b
    let r2 := classifyChannel env now currentMap cache rest r1.2.2
    (r1.1 ++ r2.1, r1.2.1 ++ r2.2.1, r2.2.2)

/-- Sending-agent resolution (index.ts lines 1330-1331): a bot key is
formed only when platform and assignee are both truthy, and is then looked
up with no fallback; otherwise the first registered bot is used. -/
def resolveBot (bots : List (String × String)) (channel : SteamChannel) :
    Option String :=
  match jsTruthy channel.platform, jsTruthy channel.assignee with
  | some p, some a => mget bots (p ++ ":" ++ a)
  | _, _ => bots.head?.map (·.2)

/-- msgs.join with newline separators. -/
def joinLines (msgs : List String) : String := String.intercalate "\n" msgs

/-- The sendListImage closure (index.ts lines 1373-1387).  Inside the try
block the roster image is drawn (the drawRoster oracle also covers the
getDefaultAvatar call of the same try block) and, when truthy, sent —
with text prefixed when withText; both a draw error and a send error are
caught and logged, after which the fallback text send runs when withText
(that last send is outside the try and its failure propagates). -/
def sendListImage (env : Env) (bot : String) (channel : SteamChannel)
    (msgs : List String) (channelPlayers : List PlayerSummary)
    (withText : Bool) (k : Nat) : Except (String × Nat) (List Event × Nat) :=
  let joined := joinLines msgs
  let fallback := fun (logs : List Event) (k1 : Nat) =>
    if withText then
      match sendMessage env k1 (.sendText bot channel.id joined) with
      | .ok (evs, k2) => .ok (logs ++ evs, k2)
      | .error e => .error e
    else .ok (logs, k1)
  match env.drawRoster channel channelPlayers with
  | .error e => fallback [.logError ("broadcast draw list failed: " ++ e)] k
  | .ok none => fallback [] k
  | .ok (some img) =>
    let msg := if withText then Event.sendTextImage bot channel.id joined img
               else Event.sendImage bot channel.id img
    match sendMessage env k msg with
    | .ok (evs, k1) => .ok (evs, k1)
    | .error (e, k1) => fallback [.logError ("broadcast draw list failed: " ++ e)] k1

/-- The sendPlayerImages closure (index.ts lines 1389-1402): for every
just-started player, in order, draw the card and send it when truthy
(draw and send errors are caught and logged), then always pause for
`Math.floor(Math.random() * 6000) + 4000` milliseconds.  The index i
numbers the random samples; no error escapes this loop. -/
def sendPlayerImages (env : Env) (bot chId : String) :
    List StartPlayer → Nat → Nat → List Event × Nat
  | [], _, k => ([], k)
  | p :: rest, i, k =>
    let step : List Event × Nat :=
      match env.drawCard p with
      | .error e => ([.logError ("broadcast drawStartGaming failed: " ++ e)], k)
      | .ok none => ([], k)
      | .ok (some img) =>
        match sendMessage env k (.sendImage bot chId img) with
        | .ok (evs, k1) => (evs, k1)
        | .error (e, k1) => ([.logError ("broadcast drawStartGaming failed: " ++ e)], k1)
    let d := Event.delay (env.rand i + 4000)
    let r := sendPlayerImages env bot chId rest (i + 1) step.2
    (step.1 ++ d :: r.1, r.2)

/-- The startMode switch of sendBroadcast (index.ts lines 1409-1422),
reached only in part mode with a non-empty just-started list. -/
def startModeSend (env : Env) (startMode bot : String) (channel : SteamChannel)
    (msgs : List String) (startGamingPlayers : List StartPlayer)
    (channelPlayers : List PlayerSummary) (k : Nat) :
    Except (String × Nat) (List Event × Nat) :=
  if startMode = "list" then sendListImage env bot channel msgs channelPlayers true k
  else if startMode = "text_image" then
    match sendMessage env k (.sendText bot channel.id (joinLines msgs)) with
    | .error e => .error e
    | .ok (evs, k1) =>
      let r := sendPlayerImages env bot channel.id startGamingPlayers 0 k1
      .ok (evs ++ r.1, r.2)
  else if startMode = "image" then
    .ok (sendPlayerImages env bot channel.id startGamingPlayers 0 k)
  else sendMessage env k (.sendText bot channel.id (joinLines msgs))

/-- sendBroadcast (index.ts lines 1357-1426). -/
def sendBroadcast (env : Env) (cfg : Config) (bot : String)
    (channel : SteamChannel) (msgs : List String)
    (startGamingPlayers : List StartPlayer) (channelBinds : List SteamBind)
    (currentMap : SMap PlayerSummary) (k : Nat) :
    Except (String × Nat) (List Event × Nat) :=
  let broadcastType := (resolveModes cfg.startBroadcastType).1
  let startMode := (resolveModes cfg.startBroadcastType).2
  let channelPlayers := channelBinds.filterMap (fun b => mget currentMap b.steamId)
  if broadcastType = "none" then
    sendMessage env k (.sendText bot channel.id (joinLines msgs))
  else if broadcastType = "all" then
    sendListImage env bot channel msgs channelPlayers true k
  else if 0 < startGamingPlayers.length then
    startModeSend env startMode bot channel msgs startGamingPlayers channelPlayers k
  else sendMessage env k (.sendText bot channel.id (joinLines msgs))

/-- The per-channel loop of broadcast (index.ts lines 1280-1335): classify
this channel's bindings, skip the channel when no line was produced or no
bot resolves, otherwise dispatch; a dispatch error aborts the cycle,
keeping the playMeta map as mutated so far. -/
def runChannels (env : Env) (cfg : Config) (now : Nat)
    (binds : List SteamBind) (currentMap : SMap PlayerSummary)
    (cache : SMap PlayerSummary) :
    List SteamChannel → SMap PlayMeta → Nat →
    Except (String × SMap PlayMeta) (SMap PlayMeta × List Event × Nat)
  | [], meta, k => .ok (meta, [], k)
  | ch :: rest, meta, k =>
    let channelBinds := binds.filter (fun b => b.channelId == ch.id)
    let r := classifyChannel env now currentMap cache channelBinds meta
    if r.1.length = 0 then
      runChannels env cfg now binds currentMap cache rest r.2.2 k
    else
      match resolveBot env.bots ch with
      | none => runChannels env cfg now binds currentMap cache rest r.2.2 k
      | some bot =>
        match sendBroadcast env cfg bot ch r.1 r.2.1 channelBinds currentMap k with
        | .error (e, _) => .error (e, r.2.2)
        | .ok (evs, k1) =>
          match runChannels env cfg now binds currentMap cache rest r.2.2 k1 with
          | .error em => .error em
          | .ok (metaF, evs2, k2) => .ok (metaF, evs ++ evs2, k2)

/-- Set deduplication preserving first occurrence, `[...new Set(xs)]`. -/
def dedup (xs : List String) : List String :=
  xs.foldl (fun acc x => if x ∈ acc then acc else acc ++ [x]) []

/-- `new Map(summaries.map(p => [p.steamid, p]))`: later entries win. -/
def buildMap (l : List PlayerSummary) : SMap PlayerSummary :=
  l.foldl (fun m p => mset m p.steamid p) []

/-- The cache commit of a completed cycle (index.ts lines 1337-1342):
every fetched summary is upserted into statusCache, and its last-seen
timestamp set to now. -/
def commitSummaries (now : Nat) (summaries : List PlayerSummary)
    (st : BState) : BState :=
  { st with
    statusCache := summaries.foldl (fun c p => mset c p.steamid p) st.statusCache
    lastSeenAt := summaries.foldl (fun c p => mset c p.steamid now) st.lastSeenAt }

/-- A last-seen entry is stale when `now - ts > STALE_TTL_MS`. -/
def isStale (now : Nat) (seen : SMap Nat) (id : String) : Bool :=
  match mget seen id with
  | some ts => now - ts > STALE_TTL_MS
  | none => false

/-- The end-of-cycle eviction (index.ts lines 1343-1350): every identity
whose last-seen timestamp is stale is deleted from lastSeenAt, statusCache
and playMeta together. -/
def evictStale (now : Nat) (st : BState) : BState :=
  ⟨st.statusCache.filter (fun e => !isStale now st.lastSeenAt e.1),
   st.playMeta.filter (fun e => !isStale now st.lastSeenAt e.1),
   st.lastSeenAt.filter (fun e => !isStale now st.lastSeenAt e.1)⟩

/-- Commit followed by eviction, the tail of a successful full cycle. -/
def commitAndEvict (now : Nat) (summaries : List PlayerSummary)
    (st : BState) : BState :=
  evictStale now (commitSummaries now summaries st)

/-- The body of broadcast's try block (index.ts lines 1268-1350).  The
error value carries the state as mutated up to the throw point: playMeta
changes made by classification before a dispatch error persist, while
statusCache and lastSeenAt are only written by the final commit. -/
def broadcastTry (env : Env) (cfg : Config) (st : BState) :
    Except (String × BState) (BState × List Event) :=
  match env.channelsRes with
  | .error e => .error (e, st)
  | .ok channels =>
    if channels.length = 0 then .ok (st, []) else
    match env.bindsRes with
    | .error e => .error (e, st)
    | .ok binds =>
      if binds.length = 0 then .ok (st, []) else
      let steamIds := dedup (binds.map (·.steamId))
      let currentSummaries := env.fetch steamIds
      let currentMap := buildMap currentSummaries
      let now := env.now
      match runChannels env cfg now binds currentMap st.statusCache channels st.playMeta 0 with
      | .error (e, meta1) => .error (e, { st with playMeta := meta1 })
      | .ok (meta1, evs, _) =>
        .ok (commitAndEvict now currentSummaries { st with playMeta := meta1 }, evs)

/-- broadcast (index.ts lines 1267-1354): the whole cycle inside one
try/catch that logs an error and returns, committing nothing further. -/
def broadcast (env : Env) (cfg : Config) (st : BState) : BState × List Event :=
  match broadcastTry env cfg st with
  | .ok (st1, evs) => (st1, evs)
  | .error (e, st1) => (st1, [.logError ("broadcast error: " ++ e)])

/-! Concrete scenario values for counterexamples and witnesses. -/

/-- Binding of user u1 to identity s1 in channel c1. -/
def exBind : SteamBind := ⟨"u1", "c1", "s1", none⟩

/-- Fresh summary: s1 is now playing G. -/
def exPlaying : PlayerSummary := ⟨"s1", "Alice", some "G", none⟩

/-- Cached summary: s1 was not playing. -/
def exIdle : PlayerSummary := ⟨"s1", "Alice", none, none⟩

/-- Channel record carrying a platform and an assignee. -/
def exChannelKeyed : SteamChannel := ⟨"c1", true, none, none, some "p", some "a"⟩

/-- Channel record without platform or assignee. -/
def exChannelPlain : SteamChannel := ⟨"c1", true, none, none, none, none⟩

/-- Environment where the only registered bot sits under key q:b while the
channel's own key is p:a, and s1 goes from idle to playing G. -/
def exEnvC2 : Env :=
  ⟨.ok [exChannelKeyed], .ok [exBind], fun _ => [exPlaying], fun _ => "",
   [("q:b", "B")], fun _ _ => .ok none, fun _ => .ok none, fun _ => true,
   fun _ => 0, 0⟩

/-- Initial state for the agent-resolution scenario. -/
def exStC2 : BState := ⟨[("s1", exIdle)], [], [("s1", 0)]⟩

/-- Just-started entry for s1 playing G. -/
def exStartPlayer : StartPlayer := ⟨exPlaying, none⟩

/-- Environment whose card renderer always throws while every send
succeeds. -/
def exEnvC3 : Env :=
  ⟨.ok [], .ok [], fun _ => [], fun _ => "", [], fun _ _ => .ok none,
   fun _ => .error "boom", fun _ => true, fun _ => 0, 0⟩

/-- Environment whose card renderer always yields the image img9, every
send succeeds, and every random sample is 0. -/
def exEnvC9 : Env :=
  ⟨.ok [], .ok [], fun _ => [], fun _ => "", [], fun _ _ => .ok none,
   fun _ => .ok (some "img9"), fun _ => true, fun _ => 0, 0⟩

/-- Environment whose roster renderer always throws while every send
succeeds. -/
def exEnvRosterFail : Env :=
  ⟨.ok [], .ok [], fun _ => [], fun _ => "", [], fun _ _ => .error "rboom",
   fun _ => .ok none, fun _ => true, fun _ => 0, 0⟩

/-- Specification-side description of the per-player card sequence: for the
i-th just-started player one card image send followed by one randomized
pause; to be compared against sendPlayerImages. -/
def cardSeqSpec (env : Env) (bot chId : String) (imgF : StartPlayer → String) :
    List StartPlayer → Nat → List Event
  | [], _ => []
  | p :: rest, i =>
    .sendImage bot chId (imgF p) :: .delay (env.rand i + 4000) ::
      cardSeqSpec env bot chId imgF rest (i + 1)

/-! Map lemmas. -/

theorem mget_mset_self {α : Type} (m : SMap α) (k : String) (v : α) :
    mget (mset m k v) k = some v := by
  induction m with
  | nil => simp [mset, mget]
  | cons e rest ih =>
    by_cases h : e.1 = k
    · simp [mset, mget, h]
    · simpa [mset, mget, h] using ih

theorem mget_cons_ne {α : Type} (e : String × α) (m : SMap α) (id : String)
    (h : e.1 ≠ id) : mget (e :: m) id = mget m id := by
  simp [mget, List.find?_cons_of_neg, h]

theorem mget_filter_none {α : Type} (m : SMap α) (p : String → Bool)
    (id : String) (h : p id = false) :
    mget (m.filter (fun e => p e.1)) id = none := by
  induction m with
  | nil => simp [mget]
  | cons e rest ih =>
    by_cases hk : e.1 = id
    · have he : p e.1 = false := by rw [hk]; exact h
      simpa [List.filter_cons, he] using ih
    · by_cases he : p e.1
      · rw [List.filter_cons, if_pos he, mget_cons_ne _ _ _ hk]
        exact ih
      · simpa [List.filter_cons, he] using ih

/-! Classifier lemmas shared between claims. -/

theorem processBind_skip (env : Env) (now : Nat) (cm cache : SMap PlayerSummary)
    (meta : SMap PlayMeta) (b : SteamBind)
    (h : mget cache b.steamId = none ∨ mget cm b.steamId = none) :
    processBind env now cm cache meta b = ([], [], meta) := by
  unfold processBind
  rcases h with h | h
  · rw [h]; cases mget cm b.steamId <;> rfl
  · rw [h]

/-- C6: for an identity with no prior presence-cache entry, and for an
identity whose fresh summary is absent from the fetch result, the
classifier produces no transition: no chat line, no just-started entry,
and the playMeta map is returned untouched, whatever the rest of the
fetched or cached state holds. -/
theorem classifier_cold_start_none (env : Env) (now : Nat)
    (cm cache : SMap PlayerSummary) (meta : SMap PlayMeta) (b : SteamBind)
    (h : mget cache b.steamId = none ∨ mget cm b.steamId = none) :
    processBind env now cm cache meta b = ([], [], meta) :=
  processBind_skip env now cm cache meta b h

/-- Witness for classifier_cold_start_none at a concrete cold-start input. -/
theorem classifier_cold_start_none_witness :
    processBind
      ⟨.ok [], .ok [], fun _ => [], fun _ => "", [], fun _ _ => .ok none,
       fun _ => .ok none, fun _ => true, fun _ => 0, 0⟩
      0 [("s1", ⟨"s1", "Alice", some "G", none⟩)] [] [] ⟨"u1", "c1", "s1", none⟩ =
      ([], [], []) :=
  classifier_cold_start_none _ 0 _ [] [] ⟨"u1", "c1", "s1", none⟩ (Or.inl rfl)

/-- C7: for an identity whose cached activity is non-null and whose fresh
activity is null, the classifier emits no line and no just-started entry,
and overwrites that identity's debounce record with the current time and
the just-stopped activity name. -/
theorem classifier_stop_writes_debounce (env : Env) (now : Nat)
    (cm cache : SMap PlayerSummary) (meta0 : SMap PlayMeta) (b : SteamBind)
    (current old : PlayerSummary) (og : String)
    (hc : mget cm b.steamId = some current)
    (ho : mget cache b.steamId = some old)
    (hold : jsTruthy old.gameextrainfo = some og)
    (hnew : jsTruthy current.gameextrainfo = none) :
    processBind env now cm cache meta0 b =
      ([], [], mset meta0 b.steamId ⟨some now, some og⟩) ∧
    mget (processBind env now cm cache meta0 b).2.2 b.steamId =
      some ⟨some now, some og⟩ := by
  have h1 : processBind env now cm cache meta0 b =
      ([], [], mset meta0 b.steamId ⟨some now, some og⟩) := by
    simp only [processBind, hc, ho, hold, hnew]
  exact ⟨h1, by rw [h1]; exact mget_mset_self meta0 b.steamId _⟩

/-- Witness for classifier_stop_writes_debounce: Bob stops CS2 at t=42. -/
theorem classifier_stop_writes_debounce_witness :
    processBind
      ⟨.ok [], .ok [], fun _ => [], fun _ => "", [], fun _ _ => .ok none,
       fun _ => .ok none, fun _ => true, fun _ => 0, 0⟩
      42 [("s2", ⟨"s2", "Bob", none, none⟩)]
      [("s2", ⟨"s2", "Bob", some "CS2", some "730"⟩)] [] ⟨"u2", "c1", "s2", none⟩ =
      ([], [], [("s2", ⟨some 42, some "CS2"⟩)]) ∧
    mget (processBind
      ⟨.ok [], .ok [], fun _ => [], fun _ => "", [], fun _ _ => .ok none,
       fun _ => .ok none, fun _ => true, fun _ => 0, 0⟩
      42 [("s2", ⟨"s2", "Bob", none, none⟩)]
      [("s2", ⟨"s2", "Bob", some "CS2", some "730"⟩)] [] ⟨"u2", "c1", "s2", none⟩).2.2
      "s2" = some ⟨some 42, some "CS2"⟩ :=
  classifier_stop_writes_debounce _ 42 _ _ [] ⟨"u2", "c1", "s2", none⟩
    ⟨"s2", "Bob", none, none⟩ ⟨"s2", "Bob", some "CS2", some "730"⟩ "CS2"
    rfl rfl rfl rfl

/-- C5: for an identity whose cached and fresh activities are both non-null
and differ, the classifier always emits exactly one chat line and one
just-started entry — whatever the debounce map holds — and clears the
identity's debounce record. -/
theorem classifier_switch_always_notifies (env : Env) (now : Nat)
    (cm cache : SMap PlayerSummary) (meta0 : SMap PlayMeta) (b : SteamBind)
    (current old : PlayerSummary) (ng og : String)
    (hc : mget cm b.steamId = some current)
    (ho : mget cache b.steamId = some old)
    (hold : jsTruthy old.gameextrainfo = some og)
    (hnew : jsTruthy current.gameextrainfo = some ng)
    (hne : ng ≠ og) :
    processBind env now cm cache meta0 b =
      ([(jsTruthy b.nickname).getD current.personaname ++ " 开始玩 " ++
          displayGameName env current ng ++ " 了"],
       [⟨{ current with gameextrainfo := some (displayGameName env current ng) },
          b.nickname⟩],
       mset meta0 b.steamId PlayMeta.empty) ∧
    mget (processBind env now cm cache meta0 b).2.2 b.steamId =
      some PlayMeta.empty := by
  have h1 : processBind env now cm cache meta0 b =
      ([(jsTruthy b.nickname).getD current.personaname ++ " 开始玩 " ++
          displayGameName env current ng ++ " 了"],
       [⟨{ current with gameextrainfo := some (displayGameName env current ng) },
          b.nickname⟩],
       mset meta0 b.steamId PlayMeta.empty) := by
    simp only [processBind, hc, ho, hold, hnew]
    rw [if_neg hne]
  exact ⟨h1, by rw [h1]; exact mget_mset_self meta0 b.steamId _⟩

/-- Witness for classifier_switch_always_notifies: Bob switches from CS2 to
Dota 2 while a fresh debounce record for Dota 2 exists; the switch still
notifies. -/
theorem classifier_switch_always_notifies_witness :
    processBind
      ⟨.ok [], .ok [], fun _ => [], fun _ => "", [], fun _ _ => .ok none,
       fun _ => .ok none, fun _ => true, fun _ => 0, 0⟩
      100 [("s2", ⟨"s2", "Bob", some "Dota 2", none⟩)]
      [("s2", ⟨"s2", "Bob", some "CS2", none⟩)]
      [("s2", ⟨some 99, some "Dota 2"⟩)] ⟨"u2", "c1", "s2", none⟩ =
      (["Bob 开始玩 Dota 2 了"],
       [⟨⟨"s2", "Bob", some "Dota 2", none⟩, none⟩],
       [("s2", ⟨none, none⟩)]) ∧
    mget (processBind
      ⟨.ok [], .ok [], fun _ => [], fun _ => "", [], fun _ _ => .ok none,
       fun _ => .ok none, fun _ => true, fun _ => 0, 0⟩
      100 [("s2", ⟨"s2", "Bob", some "Dota 2", none⟩)]
      [("s2", ⟨"s2", "Bob", some "CS2", none⟩)]
      [("s2", ⟨some 99, some "Dota 2"⟩)] ⟨"u2", "c1", "s2", none⟩).2.2 "s2" =
      some PlayMeta.empty :=
  classifier_switch_always_notifies _ 100 _ _ _ ⟨"u2", "c1", "s2", none⟩
    ⟨"s2", "Bob", some "Dota 2", none⟩ ⟨"s2", "Bob", some "CS2", none⟩
    "Dota 2" "CS2" rfl rfl rfl rfl (by decide)

/-- C1: for an identity whose cached activity is null and whose fresh
activity is non-null, the notification is suppressed (no line, no
just-started entry) exactly when a debounce record with a nonzero left-at
timestamp exists whose activity equals the new activity and whose left-at
lies strictly within the 10-minute window before now; in both cases the
debounce record is cleared afterwards.  The nonzero side condition is the
JS truthiness test on the recorded timestamp; real records always carry a
positive Date.now() value. -/
theorem classifier_resume_debounce_iff (env : Env) (now : Nat)
    (cm cache : SMap PlayerSummary) (meta0 : SMap PlayMeta) (b : SteamBind)
    (current old : PlayerSummary) (ng : String)
    (hc : mget cm b.steamId = some current)
    (ho : mget cache b.steamId = some old)
    (hold : jsTruthy old.gameextrainfo = none)
    (hnew : jsTruthy current.gameextrainfo = some ng)
    (hpos : ((mget meta0 b.steamId).getD PlayMeta.empty).lastLeftAt ≠ some 0) :
    (((processBind env now cm cache meta0 b).1 = [] ∧
      (processBind env now cm cache meta0 b).2.1 = []) ↔
      (∃ t, ((mget meta0 b.steamId).getD PlayMeta.empty).lastLeftAt = some t ∧
        ((mget meta0 b.steamId).getD PlayMeta.empty).lastLeftGame = some ng ∧
        now - t < 10 * 60 * 1000)) ∧
    mget (processBind env now cm cache meta0 b).2.2 b.steamId =
      some PlayMeta.empty := by
  rcases hL : ((mget meta0 b.steamId).getD PlayMeta.empty).lastLeftAt with _ | t
  · have h1 : processBind env now cm cache meta0 b =
        ([(jsTruthy b.nickname).getD current.personaname ++ " 开始玩 " ++
            displayGameName env current ng ++ " 了"],
         [⟨{ current with gameextrainfo := some (displayGameName env current ng) },
            b.nickname⟩],
         mset meta0 b.steamId PlayMeta.empty) := by
      simp only [processBind, hc, ho, hold, hnew, hL]
      rfl
    rw [h1]
    refine ⟨?_, mget_mset_self meta0 b.steamId _⟩
    simp [hL]
  · have ht0 : t ≠ 0 := by
      intro h; exact hpos (by rw [hL, h])
    by_cases hg : ((mget meta0 b.steamId).getD PlayMeta.empty).lastLeftGame = some ng
    · by_cases htime : now - t < 10 * 60 * 1000
      · have h1 : processBind env now cm cache meta0 b =
            ([], [], mset meta0 b.steamId PlayMeta.empty) := by
          simp only [processBind, hc, ho, hold, hnew, hL]
          simp [ht0, hg, htime]
        rw [h1]
        refine ⟨?_, mget_mset_self meta0 b.steamId _⟩
        constructor
        · intro _; exact ⟨t, rfl, hg, htime⟩
        · intro _; exact ⟨rfl, rfl⟩
      · have h1 : processBind env now cm cache meta0 b =
            ([(jsTruthy b.nickname).getD current.personaname ++ " 开始玩 " ++
                displayGameName env current ng ++ " 了"],
             [⟨{ current with gameextrainfo := some (displayGameName env current ng) },
                b.nickname⟩],
             mset meta0 b.steamId PlayMeta.empty) := by
          simp only [processBind, hc, ho, hold, hnew, hL]
          simp [ht0, hg, htime]
        rw [h1]
        refine ⟨?_, mget_mset_self meta0 b.steamId _⟩
        constructor
        · intro h; exact absurd h.1 (by simp)
        · rintro ⟨t', ht', _, htime'⟩
          cases Option.some.inj ht'
          exact absurd htime' htime
    · have h1 : processBind env now cm cache meta0 b =
          ([(jsTruthy b.nickname).getD current.personaname ++ " 开始玩 " ++
              displayGameName env current ng ++ " 了"],
           [⟨{ current with gameextrainfo := some (displayGameName env current ng) },
              b.nickname⟩],
           mset meta0 b.steamId PlayMeta.empty) := by
        simp only [processBind, hc, ho, hold, hnew, hL]
        simp [ht0, hg]
      rw [h1]
      refine ⟨?_, mget_mset_self meta0 b.steamId _⟩
      constructor
      · intro h; exact absurd h.1 (by simp)
      · rintro ⟨t', _, hg', _⟩
        exact absurd hg' hg

/-- Witness for classifier_resume_debounce_iff: Alice left G five minutes
ago and starts G again; the notification is suppressed and the record is
cleared. -/
theorem classifier_resume_debounce_iff_witness :
    (((processBind
      ⟨.ok [], .ok [], fun _ => [], fun _ => "", [], fun _ _ => .ok none,
       fun _ => .ok none, fun _ => true, fun _ => 0, 0⟩
      600000 [("s1", ⟨"s1", "Alice", some "G", none⟩)]
      [("s1", ⟨"s1", "Alice", none, none⟩)]
      [("s1", ⟨some 300000, some "G"⟩)] ⟨"u1", "c1", "s1", none⟩).1 = [] ∧
      (processBind
      ⟨.ok [], .ok [], fun _ => [], fun _ => "", [], fun _ _ => .ok none,
       fun _ => .ok none, fun _ => true, fun _ => 0, 0⟩
      600000 [("s1", ⟨"s1", "Alice", some "G", none⟩)]
      [("s1", ⟨"s1", "Alice", none, none⟩)]
      [("s1", ⟨some 300000, some "G"⟩)] ⟨"u1", "c1", "s1", none⟩).2.1 = []) ↔
      (∃ t, (some 300000 : Option Nat) = some t ∧
        (some "G" : Option String) = some "G" ∧ 600000 - t < 10 * 60 * 1000)) ∧
    mget (processBind
      ⟨.ok [], .ok [], fun _ => [], fun _ => "", [], fun _ _ => .ok none,
       fun _ => .ok none, fun _ => true, fun _ => 0, 0⟩
      600000 [("s1", ⟨"s1", "Alice", some "G", none⟩)]
      [("s1", ⟨"s1", "Alice", none, none⟩)]
      [("s1", ⟨some 300000, some "G"⟩)] ⟨"u1", "c1", "s1", none⟩).2.2 "s1" =
      some PlayMeta.empty :=
  classifier_resume_debounce_iff _ 600000 _ _ _ ⟨"u1", "c1", "s1", none⟩
    ⟨"s1", "Alice", some "G", none⟩ ⟨"s1", "Alice", none, none⟩ "G"
    rfl rfl rfl rfl (by decide)

/-- C8: after the end-of-cycle commit, every identity whose last-seen
timestamp is more than 7 days older than now is removed from the last-seen
map, the presence cache and the debounce store together, and a later fetch
for it is classified as cold-start (the classifier yields no transition). -/
theorem cycle_end_eviction_purges_stale (now : Nat)
    (summaries : List PlayerSummary) (st : BState) (id : String) (ts : Nat)
    (hts : mget (commitSummaries now summaries st).lastSeenAt id = some ts)
    (hstale : now - ts > STALE_TTL_MS) :
    mget (commitAndEvict now summaries st).lastSeenAt id = none ∧
    mget (commitAndEvict now summaries st).statusCache id = none ∧
    mget (commitAndEvict now summaries st).playMeta id = none ∧
    (∀ env now1 cm meta (b : SteamBind), b.steamId = id →
      processBind env now1 cm (commitAndEvict now summaries st).statusCache
        meta b = ([], [], meta)) := by
  have hFalse :
      (!isStale now (commitSummaries now summaries st).lastSeenAt id) = false := by
    simp [isStale, hts, hstale]
  have h1 : mget (commitAndEvict now summaries st).lastSeenAt id = none :=
    mget_filter_none (commitSummaries now summaries st).lastSeenAt
      (fun s => !isStale now (commitSummaries now summaries st).lastSeenAt s)
      id hFalse
  have h2 : mget (commitAndEvict now summaries st).statusCache id = none :=
    mget_filter_none (commitSummaries now summaries st).statusCache
      (fun s => !isStale now (commitSummaries now summaries st).lastSeenAt s)
      id hFalse
  have h3 : mget (commitAndEvict now summaries st).playMeta id = none :=
    mget_filter_none (commitSummaries now summaries st).playMeta
      (fun s => !isStale now (commitSummaries now summaries st).lastSeenAt s)
      id hFalse
  refine ⟨h1, h2, h3, ?_⟩
  intro env now1 cm meta b hb
  exact processBind_skip env now1 cm _ meta b (Or.inl (by rw [hb]; exact h2))

/-- Witness for cycle_end_eviction_purges_stale: an identity last seen at
t=0 is purged at now = 7 days + 1 ms, with an empty fetch result. -/
theorem cycle_end_eviction_purges_stale_witness :
    mget (commitAndEvict 604800001 []
      ⟨[("old", ⟨"old", "X", none, none⟩)], [("old", ⟨some 0, some "G"⟩)],
       [("old", 0)]⟩).lastSeenAt "old" = none ∧
    mget (commitAndEvict 604800001 []
      ⟨[("old", ⟨"old", "X", none, none⟩)], [("old", ⟨some 0, some "G"⟩)],
       [("old", 0)]⟩).statusCache "old" = none ∧
    mget (commitAndEvict 604800001 []
      ⟨[("old", ⟨"old", "X", none, none⟩)], [("old", ⟨some 0, some "G"⟩)],
       [("old", 0)]⟩).playMeta "old" = none ∧
    (∀ env now1 cm meta (b : SteamBind), b.steamId = "old" →
      processBind env now1 cm (commitAndEvict 604800001 []
        ⟨[("old", ⟨"old", "X", none, none⟩)], [("old", ⟨some 0, some "G"⟩)],
         [("old", 0)]⟩).statusCache meta b = ([], [], meta)) :=
  cycle_end_eviction_purges_stale 604800001 []
    ⟨[("old", ⟨"old", "X", none, none⟩)], [("old", ⟨some 0, some "G"⟩)],
     [("old", 0)]⟩ "old" 0 rfl (by decide)

/-- C4: whenever the cycle body throws before the end-of-cycle commit, the
presence cache and last-seen map are exactly the initial ones (no summary
committed, no eviction), and broadcast swallows the exception, returning
after logging the error once. -/
theorem cycle_error_aborts_without_commit (env : Env) (cfg : Config)
    (st : BState) (e : String) (st1 : BState)
    (h : broadcastTry env cfg st = .error (e, st1)) :
    st1.statusCache = st.statusCache ∧ st1.lastSeenAt = st.lastSeenAt ∧
    broadcast env cfg st = (st1, [.logError ("broadcast error: " ++ e)]) := by
  have hb : broadcast env cfg st = (st1, [.logError ("broadcast error: " ++ e)]) := by
    simp [broadcast, h]
  have hfields : st1.statusCache = st.statusCache ∧ st1.lastSeenAt = st.lastSeenAt := by
    simp only [broadcastTry] at h
    split at h
    · cases h; exact ⟨rfl, rfl⟩
    · split at h
      · cases h
      · split at h
        · cases h; exact ⟨rfl, rfl⟩
        · split at h
          · cases h
          · split at h
            · cases h; exact ⟨rfl, rfl⟩
            · cases h
  exact ⟨hfields.1, hfields.2, hb⟩

/-- Witness for cycle_error_aborts_without_commit: the channel query throws. -/
theorem cycle_error_aborts_without_commit_witness :
    (⟨[("s1", ⟨"s1", "A", none, none⟩)], [], [("s1", 5)]⟩ : BState).statusCache =
      (⟨[("s1", ⟨"s1", "A", none, none⟩)], [], [("s1", 5)]⟩ : BState).statusCache ∧
    (⟨[("s1", ⟨"s1", "A", none, none⟩)], [], [("s1", 5)]⟩ : BState).lastSeenAt =
      (⟨[("s1", ⟨"s1", "A", none, none⟩)], [], [("s1", 5)]⟩ : BState).lastSeenAt ∧
    broadcast
      ⟨.error "db down", .ok [], fun _ => [], fun _ => "", [], fun _ _ => .ok none,
       fun _ => .ok none, fun _ => true, fun _ => 0, 0⟩
      ⟨none⟩ ⟨[("s1", ⟨"s1", "A", none, none⟩)], [], [("s1", 5)]⟩ =
      (⟨[("s1", ⟨"s1", "A", none, none⟩)], [], [("s1", 5)]⟩,
       [.logError ("broadcast error: " ++ "db down")]) :=
  cycle_error_aborts_without_commit
    ⟨.error "db down", .ok [], fun _ => [], fun _ => "", [], fun _ _ => .ok none,
     fun _ => .ok none, fun _ => true, fun _ => 0, 0⟩
    ⟨none⟩ ⟨[("s1", ⟨"s1", "A", none, none⟩)], [], [("s1", 5)]⟩ "db down"
    ⟨[("s1", ⟨"s1", "A", none, none⟩)], [], [("s1", 5)]⟩ rfl

theorem processBind_length_eq (env : Env) (now : Nat)
    (cm cache : SMap PlayerSummary) (meta : SMap PlayMeta) (b : SteamBind) :
    (processBind env now cm cache meta b).1.length =
    (processBind env now cm cache meta b).2.1.length := by
  unfold processBind
  cases mget cm b.steamId with
  | none => rfl
  | some current =>
    cases mget cache b.steamId with
    | none => rfl
    | some old =>
      cases hn : jsTruthy current.gameextrainfo with
      | none => cases ho : jsTruthy old.gameextrainfo <;> simp [hn, ho]
      | some ng =>
        cases ho : jsTruthy old.gameextrainfo with
        | none =>
          simp only [hn, ho]
          split <;> rfl
        | some og =>
          simp only [hn, ho]
          split <;> rfl

theorem classifyChannel_length_eq (env : Env) (now : Nat)
    (cm cache : SMap PlayerSummary) :
    ∀ (binds : List SteamBind) (meta : SMap PlayMeta),
      (classifyChannel env now cm cache binds meta).1.length =
      (classifyChannel env now cm cache binds meta).2.1.length := by
  intro binds
  induction binds with
  | nil => intro _; rfl
  | cons b rest ih =>
    intro meta
    simp only [classifyChannel, List.length_append, processBind_length_eq, ih]

/-- C10: the per-channel chat-line list and just-started list always have
equal lengths (they are appended to only together), so whenever a channel
produced at least one line the dispatcher receives a positive just-started
count, and the part-mode branch degrading to plain text for an empty
just-started list is bypassed: dispatch always goes through the startMode
switch. -/
theorem dispatch_lists_aligned :
    (∀ env now cm cache binds meta,
      (classifyChannel env now cm cache binds meta).1.length =
      (classifyChannel env now cm cache binds meta).2.1.length) ∧
    (∀ env cfg now cm cache binds meta (ch : SteamChannel) (bot : String)
        (cbinds : List SteamBind) (k : Nat),
      (resolveModes cfg.startBroadcastType).1 = "part" →
      (classifyChannel env now cm cache binds meta).1 ≠ [] →
      0 < (classifyChannel env now cm cache binds meta).2.1.length ∧
      sendBroadcast env cfg bot ch (classifyChannel env now cm cache binds meta).1
          (classifyChannel env now cm cache binds meta).2.1 cbinds cm k =
        startModeSend env (resolveModes cfg.startBroadcastType).2 bot ch
          (classifyChannel env now cm cache binds meta).1
          (classifyChannel env now cm cache binds meta).2.1
          (cbinds.filterMap fun b => mget cm b.steamId) k) := by
  refine ⟨classifyChannel_length_eq, ?_⟩
  intro env cfg now cm cache binds meta ch bot cbinds k hpart hne
  have hpos : 0 < (classifyChannel env now cm cache binds meta).2.1.length := by
    rw [← classifyChannel_length_eq]
    exact List.length_pos.2 hne
  refine ⟨hpos, ?_⟩
  simp only [sendBroadcast, hpart]
  rw [if_neg (by decide : ¬("part" : String) = "none"),
      if_neg (by decide : ¬("part" : String) = "all"), if_pos hpos]

/-- Witness for dispatch_lists_aligned: with one just-started binding and
part mode, dispatch goes through the startMode switch. -/
theorem dispatch_lists_aligned_witness :
    0 < (classifyChannel exEnvC2 0 [("s1", exPlaying)] [("s1", exIdle)]
      [exBind] []).2.1.length ∧
    sendBroadcast exEnvC2 ⟨some "part"⟩ "B" exChannelPlain
        (classifyChannel exEnvC2 0 [("s1", exPlaying)] [("s1", exIdle)]
          [exBind] []).1
        (classifyChannel exEnvC2 0 [("s1", exPlaying)] [("s1", exIdle)]
          [exBind] []).2.1 [] [("s1", exPlaying)] 0 =
      startModeSend exEnvC2 (resolveModes (some "part")).2 "B" exChannelPlain
        (classifyChannel exEnvC2 0 [("s1", exPlaying)] [("s1", exIdle)]
          [exBind] []).1
        (classifyChannel exEnvC2 0 [("s1", exPlaying)] [("s1", exIdle)]
          [exBind] []).2.1
        (List.filterMap (fun b : SteamBind => mget [("s1", exPlaying)] b.steamId)
          ([] : List SteamBind)) 0 :=
  dispatch_lists_aligned.2 exEnvC2 ⟨some "part"⟩ 0 [("s1", exPlaying)]
    [("s1", exIdle)] [exBind] [] exChannelPlain "B" [] 0 rfl (by decide)

/-- C2 counterexample: the channel's platform and assignee are both set,
the only registered agent sits under a different key, and classification
produced a line for the channel; the claim predicts a fallback send through
that agent, but the cycle sends nothing at all. -/
theorem agent_resolution_counterexample :
    exEnvC2.bots.length = 1 ∧
    resolveBot exEnvC2.bots exChannelKeyed = none ∧
    (classifyChannel exEnvC2 0 (buildMap (exEnvC2.fetch ["s1"]))
      exStC2.statusCache [exBind] []).1.length = 1 ∧
    ((broadcast exEnvC2 ⟨none⟩ exStC2).2.filter Event.isSend).length = 0 :=
  ⟨rfl, rfl, rfl, rfl⟩

/-- C2 amended: when platform and assignee are both truthy, exactly the
agent registered under platform:assignee is used, with no fallback — an
unmatched key makes dispatch for the channel a no-op; the first registered
agent is used only when platform or assignee is missing, and when no agent
resolves the channel is skipped without sending. -/
theorem agent_resolution_amended :
    (∀ (bots : List (String × String)) (ch : SteamChannel) (p a : String),
      jsTruthy ch.platform = some p → jsTruthy ch.assignee = some a →
      resolveBot bots ch = mget bots (p ++ ":" ++ a)) ∧
    (∀ (bots : List (String × String)) (ch : SteamChannel),
      jsTruthy ch.platform = none ∨ jsTruthy ch.assignee = none →
      resolveBot bots ch = bots.head?.map (·.2)) ∧
    (∀ env cfg now (binds : List SteamBind) cm cache (ch : SteamChannel)
        (meta : SMap PlayMeta) (k : Nat),
      resolveBot env.bots ch = none →
      runChannels env cfg now binds cm cache [ch] meta k =
        .ok ((classifyChannel env now cm cache
          (binds.filter (fun b => b.channelId == ch.id)) meta).2.2, [], k)) := by
  refine ⟨?_, ?_, ?_⟩
  · intro bots ch p a hp ha
    simp [resolveBot, hp, ha]
  · intro bots ch h
    rcases h with h | h
    · simp [resolveBot, h]
    · rcases hp : jsTruthy ch.platform with _ | p <;> simp [resolveBot, hp, h]
  · intro env cfg now binds cm cache ch meta k hbot
    simp only [runChannels, hbot]
    split
    · rfl
    · rfl

/-- Witness for agent_resolution_amended at the concrete mismatched key. -/
theorem agent_resolution_amended_witness :
    resolveBot exEnvC2.bots exChannelKeyed =
      mget exEnvC2.bots ("p" ++ ":" ++ "a") ∧
    runChannels exEnvC2 ⟨none⟩ 0 [exBind] (buildMap (exEnvC2.fetch ["s1"]))
        exStC2.statusCache [exChannelKeyed] [] 0 =
      .ok ((classifyChannel exEnvC2 0 (buildMap (exEnvC2.fetch ["s1"]))
        exStC2.statusCache
        (List.filter (fun b => b.channelId == exChannelKeyed.id) [exBind])
        []).2.2, [], 0) :=
  ⟨agent_resolution_amended.1 exEnvC2.bots exChannelKeyed "p" "a" rfl rfl,
   agent_resolution_amended.2.2 exEnvC2 ⟨none⟩ 0 [exBind]
     (buildMap (exEnvC2.fetch ["s1"])) exStC2.statusCache exChannelKeyed [] 0 rfl⟩

/-- C3 counterexample: presentation mode image with one just-started
identity whose card render throws; the claim predicts a fallback text send
(text was not yet sent in this mode), but the dispatch emits only a log and
the pacing delay — no send of any kind. -/
theorem render_fallback_counterexample :
    (resolveModes (some "image")).1 = "part" ∧
    (resolveModes (some "image")).2 = "image" ∧
    sendBroadcast exEnvC3 ⟨some "image"⟩ "B" exChannelPlain
        ["Alice 开始玩 G 了"] [exStartPlayer] [] [] 0 =
      .ok ([.logError ("broadcast drawStartGaming failed: boom"),
            .delay 4000], 0) ∧
    (([Event.logError "broadcast drawStartGaming failed: boom",
       Event.delay 4000]).filter Event.isSend).length = 0 :=
  ⟨rfl, rfl, rfl, rfl⟩

/-- C3 amended: a roster-image failure in the list paths (modes all and
list, always invoked with text) falls back to sending the text lines; in
mode text_image the text is sent before any card render, so card failures
lose nothing; but a per-identity card failure is only logged and skipped,
with no text fallback — in mode image nothing is sent for that identity. -/
theorem render_fallback_amended :
    (∀ (env : Env) (bot : String) (ch : SteamChannel) (msgs : List String)
        (cps : List PlayerSummary) (k : Nat) (er : String),
      env.drawRoster ch cps = .error er → env.sendOk k = true →
      sendListImage env bot ch msgs cps true k =
        .ok ([.logError ("broadcast draw list failed: " ++ er),
              .sendText bot ch.id (joinLines msgs)], k + 1)) ∧
    (∀ (env : Env) (cfg : Config) (bot : String) (ch : SteamChannel)
        (msgs : List String) (players : List StartPlayer)
        (cbinds : List SteamBind) (cm : SMap PlayerSummary) (k : Nat),
      (resolveModes cfg.startBroadcastType).1 = "part" →
      (resolveModes cfg.startBroadcastType).2 = "text_image" →
      0 < players.length → env.sendOk k = true →
      ∃ rest kf, sendBroadcast env cfg bot ch msgs players cbinds cm k =
        .ok (.sendText bot ch.id (joinLines msgs) :: rest, kf)) ∧
    (∀ (env : Env) (bot chId : String) (p : StartPlayer)
        (rest : List StartPlayer) (i k : Nat) (er : String),
      env.drawCard p = .error er →
      sendPlayerImages env bot chId (p :: rest) i k =
        (.logError ("broadcast drawStartGaming failed: " ++ er) ::
         .delay (env.rand i + 4000) ::
         (sendPlayerImages env bot chId rest (i + 1) k).1,
         (sendPlayerImages env bot chId rest (i + 1) k).2)) := by
  refine ⟨?_, ?_, ?_⟩
  · intro env bot ch msgs cps k er hdr hok
    simp [sendListImage, hdr, sendMessage, hok]
  · intro env cfg bot ch msgs players cbinds cm k hbt hsm hpos hok
    refine ⟨(sendPlayerImages env bot ch.id players 0 (k + 1)).1,
            (sendPlayerImages env bot ch.id players 0 (k + 1)).2, ?_⟩
    simp only [sendBroadcast, hbt]
    rw [if_neg (by decide : ¬("part" : String) = "none"),
        if_neg (by decide : ¬("part" : String) = "all"), if_pos hpos]
    simp only [startModeSend, hsm, if_true]
    simp [sendMessage, hok]
  · intro env bot chId p rest i k er hdc
    simp [sendPlayerImages, hdc]

/-- Witness for render_fallback_amended: the roster render throws and the
text lines are sent instead. -/
theorem render_fallback_amended_witness :
    sendListImage exEnvRosterFail "B" exChannelPlain ["l"] [] true 0 =
      .ok ([.logError ("broadcast draw list failed: " ++ "rboom"),
            .sendText "B" exChannelPlain.id (joinLines ["l"])], 0 + 1) :=
  render_fallback_amended.1 exEnvRosterFail "B" exChannelPlain ["l"] [] 0
    "rboom" rfl rfl

/-- C9 counterexample: under the canonical text_image configuration (and
the default one) the dispatch of a single just-started identity emits the
pacing delay; the claim's configurable-off pacing does not exist — the
delay is unconditional in sendPlayerImages. -/
theorem pacing_option_counterexample :
    resolveModes (some "text_image") = ("part", "text_image") ∧
    resolveModes none = ("part", "text_image") ∧
    sendBroadcast exEnvC9 ⟨some "text_image"⟩ "B" exChannelPlain ["l"]
        [exStartPlayer] [] [] 0 =
      .ok ([.sendText "B" "c1" "l", .sendImage "B" "c1" "img9",
            .delay 4000], 2) ∧
    (([Event.sendText "B" "c1" "l", Event.sendImage "B" "c1" "img9",
       Event.delay 4000]).filter Event.isDelay).length = 1 :=
  ⟨rfl, rfl, rfl, rfl⟩

theorem sendPlayerImages_ok_trace (env : Env) (bot chId : String)
    (imgF : StartPlayer → String) :
    ∀ (players : List StartPlayer) (i k : Nat),
      (∀ n, env.sendOk n = true) →
      (∀ p ∈ players, env.drawCard p = .ok (some (imgF p))) →
      sendPlayerImages env bot chId players i k =
        (cardSeqSpec env bot chId imgF players i, k + players.length) := by
  intro players
  induction players with
  | nil => intro i k _ _; rfl
  | cons p rest ih =>
    intro i k hok hdraw
    have hp := hdraw p (List.mem_cons_self p rest)
    have hr : ∀ q ∈ rest, env.drawCard q = .ok (some (imgF q)) :=
      fun q hq => hdraw q (List.mem_cons_of_mem p hq)
    simp only [sendPlayerImages, hp, sendMessage, hok k, if_pos,
      cardSeqSpec, ih (i + 1) (k + 1) hok hr]
    simp only [Prod.mk.injEq, List.length_cons]
    exact ⟨rfl, by omega⟩

theorem cardSeqSpec_send_count (env : Env) (bot chId : String)
    (imgF : StartPlayer → String) :
    ∀ (players : List StartPlayer) (i : Nat),
      ((cardSeqSpec env bot chId imgF players i).filter Event.isSend).length =
        players.length := by
  intro players
  induction players with
  | nil => intro _; rfl
  | cons p rest ih =>
    intro i
    simp [cardSeqSpec, Event.isSend, ih (i + 1)]

theorem cardSeqSpec_delay_count (env : Env) (bot chId : String)
    (imgF : StartPlayer → String) :
    ∀ (players : List StartPlayer) (i : Nat),
      ((cardSeqSpec env bot chId imgF players i).filter Event.isDelay).length =
        players.length := by
  intro players
  induction players with
  | nil => intro _; rfl
  | cons p rest ih =>
    intro i
    simp [cardSeqSpec, Event.isDelay, ih (i + 1)]

theorem cardSeqSpec_delay_window (env : Env) (bot chId : String)
    (imgF : StartPlayer → String) (hrand : ∀ n, env.rand n < 6000) :
    ∀ (players : List StartPlayer) (i : Nat) (ms : Nat),
      Event.delay ms ∈ cardSeqSpec env bot chId imgF players i →
      4000 ≤ ms ∧ ms < 10000 := by
  intro players
  induction players with
  | nil => intro i ms h; cases h
  | cons p rest ih =>
    intro i ms h
    rcases List.mem_cons.1 h with h1 | h2
    · simp at h1
    · rcases List.mem_cons.1 h2 with h3 | h4
      · have hms : ms = env.rand i + 4000 := by simpa using h3
        have := hrand i
        omega
      · exact ih (i + 1) ms h4

/-- C9 amended: under every configuration resolving to part mode with
startMode text_image, a dispatch whose card renders and sends all succeed
performs exactly one text send followed by exactly n card-image sends in
list order, each image send followed by a randomized pause lying in the
4-10 second window; the pacing is unconditional — no configuration
disables it. -/
theorem text_image_dispatch_paced (env : Env) (cfg : Config) (bot : String)
    (ch : SteamChannel) (msgs : List String) (players : List StartPlayer)
    (cbinds : List SteamBind) (cm : SMap PlayerSummary) (k : Nat)
    (imgF : StartPlayer → String)
    (hbt : (resolveModes cfg.startBroadcastType).1 = "part")
    (hsm : (resolveModes cfg.startBroadcastType).2 = "text_image")
    (hpos : 0 < players.length)
    (hok : ∀ n, env.sendOk n = true)
    (hdraw : ∀ p ∈ players, env.drawCard p = .ok (some (imgF p)))
    (hrand : ∀ n, env.rand n < 6000) :
    sendBroadcast env cfg bot ch msgs players cbinds cm k =
      .ok (.sendText bot ch.id (joinLines msgs) ::
           cardSeqSpec env bot ch.id imgF players 0, k + 1 + players.length) ∧
    ((Event.sendText bot ch.id (joinLines msgs) ::
      cardSeqSpec env bot ch.id imgF players 0).filter Event.isSend).length =
      1 + players.length ∧
    ((cardSeqSpec env bot ch.id imgF players 0).filter Event.isDelay).length =
      players.length ∧
    (∀ ms, Event.delay ms ∈ cardSeqSpec env bot ch.id imgF players 0 →
      4000 ≤ ms ∧ ms < 10000) := by
  refine ⟨?_, ?_, cardSeqSpec_delay_count env bot ch.id imgF players 0,
    fun ms h => cardSeqSpec_delay_window env bot ch.id imgF hrand players 0 ms h⟩
  · simp only [sendBroadcast, hbt]
    rw [if_neg (by decide : ¬("part" : String) = "none"),
        if_neg (by decide : ¬("part" : String) = "all"), if_pos hpos]
    simp only [startModeSend, hsm, if_true]
    simp only [sendMessage, hok k, if_true]
    rw [sendPlayerImages_ok_trace env bot ch.id imgF players 0 (k + 1) hok hdraw]
    simp
  · simp [Event.isSend, cardSeqSpec_send_count env bot ch.id imgF players 0]
    omega

/-- Witness for text_image_dispatch_paced with one just-started identity. -/
theorem text_image_dispatch_paced_witness :
    sendBroadcast exEnvC9 ⟨some "text_image"⟩ "B" exChannelPlain ["l"]
        [exStartPlayer] [] [] 0 =
      .ok (.sendText "B" exChannelPlain.id (joinLines ["l"]) ::
           cardSeqSpec exEnvC9 "B" exChannelPlain.id (fun _ => "img9")
             [exStartPlayer] 0, 0 + 1 + [exStartPlayer].length) ∧
    ((Event.sendText "B" exChannelPlain.id (joinLines ["l"]) ::
      cardSeqSpec exEnvC9 "B" exChannelPlain.id (fun _ => "img9")
        [exStartPlayer] 0).filter Event.isSend).length =
      1 + [exStartPlayer].length ∧
    ((cardSeqSpec exEnvC9 "B" exChannelPlain.id (fun _ => "img9")
        [exStartPlayer] 0).filter Event.isDelay).length =
      [exStartPlayer].length ∧
    (∀ ms, Event.delay ms ∈ cardSeqSpec exEnvC9 "B" exChannelPlain.id
        (fun _ => "img9") [exStartPlayer] 0 →
      4000 ≤ ms ∧ ms < 10000) :=
  text_image_dispatch_paced exEnvC9 ⟨some "text_image"⟩ "B" exChannelPlain
    ["l"] [exStartPlayer] [] [] 0 (fun _ => "img9") rfl rfl (by decide)
    (fun _ => rfl) (fun _ _ => rfl) (fun _ => (by decide : (0 : Nat) < 6000))

end SteamInfo
